import Mathlib

/-
Verification of the R2 mount reconciler (src/src/gateway/r2.ts) of
moltbot-sandbox-working: a shallow embedding of `mountR2Storage` and
`isR2Accessible`, with the sandbox runtime modelled as a record of
behaviour functions whose fallible operations return `Except String`.
-/

namespace Moltbot

/-- JavaScript truthiness of an optional string field: `undefined` and the
empty string are falsy, every other string is truthy (`!env.FIELD`). -/
def strTruthy : Option String → Bool
  | none => false
  | some s => !(s == "")

/-- Whether the first character list is an initial segment of the second. -/
def leadsWith : List Char → List Char → Bool
  | [], _ => true
  | _ :: _, [] => false
  | p :: ps, c :: cs => (p == c) && leadsWith ps cs

/-- Whether the pattern occurs as a contiguous segment of the character
list (at any position, the empty pattern occurring everywhere). -/
def containsSeq (pat : List Char) : List Char → Bool
  | [] => leadsWith pat []
  | c :: cs => leadsWith pat (c :: cs) || containsSeq pat cs

/-- JavaScript `String.prototype.includes`: substring containment over the
underlying character lists. -/
def strContains (s pat : String) : Bool :=
  containsSeq pat.toList s.toList

/-- Worker environment bindings used by `mountR2Storage` (the `MoltbotEnv`
fields it reads); each field is an optional string since an env binding may
be absent. -/
structure MoltbotEnv where
  R2_ACCESS_KEY_ID : Option String
  R2_SECRET_ACCESS_KEY : Option String
  CF_ACCOUNT_ID : Option String
  R2_BUCKET_NAME : Option String
deriving DecidableEq, Repr

/-- Modelled from the spec: the configuration module (src/config) is not in
the source tree; per the spec the configuration collaborator supplies "the
fixed mount path", which the repository tests pin to "/data/moltbot". -/
def R2_MOUNT_PATH : String := "/data/moltbot"

/-- Modelled from the spec: the configuration module (src/config) is not in
the source tree; per the spec, bucket-name resolution is "env override or
default" and a custom override "is passed through verbatim to the mount
call instead of the default name"; the repository tests pin the default
name to "moltbot-data". -/
def getR2BucketName (env : MoltbotEnv) : String :=
  match env.R2_BUCKET_NAME with
  | none => "moltbot-data"
  | some s => if s == "" then "moltbot-data" else s

/-- Credentials payload of the mount options (`accessKeyId`,
`secretAccessKey`). -/
structure Credentials where
  accessKeyId : String
  secretAccessKey : String
deriving DecidableEq, Repr

/-- Options object passed to `sandbox.mountBucket`: the derived endpoint
and the credentials payload. -/
structure MountOptions where
  endpoint : String
  credentials : Credentials
deriving DecidableEq, Repr

/-- Captured logs of a sandbox process (`getLogs` result); `stdout` may be
`undefined` in the source, hence `Option String`. -/
structure Logs where
  stdout : Option String
  stderr : Option String
deriving DecidableEq, Repr

/-- A remote process handle: the status string observed at the n-th poll of
`proc.status`, and the outcome of `proc.getLogs()` (which may throw). -/
structure Process where
  statusAt : Nat → String
  getLogs : Except String Logs

/-- The sandbox collaborator: `startProcess` may return a process handle or
throw; `mountBucket` takes bucket name, mount path and options, and either
succeeds or throws with a descriptive message. -/
structure Sandbox where
  startProcess : String → Except String Process
  mountBucket : String → String → MountOptions → Except String Unit

/-- The remote probe command issued by `isR2Accessible`: create then delete
a marker file under the mount path and echo the success token. -/
def probeCommand : String :=
  "test -d " ++ R2_MOUNT_PATH ++ " && touch " ++ R2_MOUNT_PATH ++
    "/.mount-check && rm -f " ++ R2_MOUNT_PATH ++
    "/.mount-check && echo \"accessible\""

/-- The poll loop of `isR2Accessible` (r2.ts lines 17-21): starting from a
given `attempts` counter, while the observed status is "running" and
`attempts < 10`, sleep one 200ms tick and increment; returns the final
value of `attempts`, i.e. the number of sleep iterations performed when
started from 0. -/
def pollFrom (statusAt : Nat → String) (attempts : Nat) : Nat :=
  if h : statusAt attempts = "running" ∧ attempts < 10 then
    pollFrom statusAt (attempts + 1)
  else attempts
termination_by 10 - attempts
decreasing_by omega

/-- Number of poll-loop iterations (each a 200ms sleep) the probe performs
on a given process handle. -/
def probeIterations (proc : Process) : Nat :=
  pollFrom proc.statusAt 0

/-- Total milliseconds slept by the probe's poll loop: 200ms per iteration. -/
def probeSleepMs (proc : Process) : Nat :=
  200 * probeIterations proc

/-- The accessibility verdict computed from captured stdout (r2.ts line 23):
`!!(logs.stdout && logs.stdout.includes("accessible"))` — falsy stdout
(undefined or empty) gives false, otherwise the substring check decides. -/
def stdoutAccessible : Option String → Bool
  | none => false
  | some out => !(out == "") && strContains out "accessible"

/-- The tail of the try body after the poll loop (r2.ts lines 22-23): await
the logs (an exception propagates) and compute the verdict from stdout. -/
def tryFromLogs (r : Except String Logs) : Except String Bool :=
  match r with
  | .error e => .error e
  | .ok logs => .ok (stdoutAccessible logs.stdout)

/-- The `try` body of `isR2Accessible` (r2.ts lines 13-25): start the probe
process, wait through the (value-irrelevant) poll loop — its timing is
`probeIterations`/`probeSleepMs` — then read the logs and compute the
verdict from stdout. Exceptions of either awaited operation propagate. -/
def isR2AccessibleTry (sandbox : Sandbox) : Except String Bool :=
  match sandbox.startProcess probeCommand with
  | .error e => .error e
  | .ok proc => tryFromLogs proc.getLogs

/-- The accessibility probe `isR2Accessible` (r2.ts lines 12-30): the try
body wrapped in the catch-all that converts any exception into `false`. -/
def isR2Accessible (sandbox : Sandbox) : Except String Bool :=
  match isR2AccessibleTry sandbox with
  | .ok b => .ok b
  | .error _ => .ok false

/-- One recorded invocation of `sandbox.mountBucket` with its three
arguments. -/
structure MountCall where
  bucket : String
  path : String
  opts : MountOptions
deriving DecidableEq, Repr

/-- Result of one run of `mountR2Storage`: the value returned to the caller
(or a propagated exception), plus the trace of `mountBucket` invocations
made during the run. -/
structure MountRun where
  result : Except String Bool
  mountCalls : List MountCall

/-- The derived endpoint URL (r2.ts line 47). -/
def r2Endpoint (env : MoltbotEnv) : String :=
  "https://" ++ env.CF_ACCOUNT_ID.getD "" ++ ".r2.cloudflarestorage.com"

/-- The options object `mountR2Storage` passes to `mountBucket`
(r2.ts lines 51-57). -/
def mountOpts (env : MoltbotEnv) : MountOptions :=
  ⟨r2Endpoint env,
   ⟨env.R2_ACCESS_KEY_ID.getD "", env.R2_SECRET_ACCESS_KEY.getD ""⟩⟩

/-- The one `mountBucket` invocation `mountR2Storage` makes when the
credentials are configured: resolved bucket name, fixed path, derived
options (r2.ts lines 51-57). -/
def mountCallOf (env : MoltbotEnv) : MountCall :=
  ⟨getR2BucketName env, R2_MOUNT_PATH, mountOpts env⟩

/-- The catch block of `mountR2Storage` (r2.ts lines 60-91), entered with
the thrown error's message: a message containing "already in use" runs the
probe and returns true whatever the probe reports (an exception thrown by
the probe itself, inside the catch block, would propagate); any other
message returns false. -/
def mountCatch (sandbox : Sandbox) (env : MoltbotEnv)
    (errorMessage : String) : MountRun :=
  if strContains errorMessage "already in use" then
    match isR2Accessible sandbox with
    | .error e => ⟨.error e, [mountCallOf env]⟩
    | .ok accessible =>
      if accessible then ⟨.ok true, [mountCallOf env]⟩
      else ⟨.ok true, [mountCallOf env]⟩
  else
    ⟨.ok false, [mountCallOf env]⟩

/-- The mount reconciler `mountR2Storage` (r2.ts lines 39-93). Missing
(falsy) credentials short-circuit to false with no mount call; otherwise
`mountBucket` is invoked once with the resolved bucket name, fixed path and
options. Success returns true; a thrown message containing "already in use"
runs the probe and returns true whatever it reports (an exception thrown by
the probe itself, inside the catch block, would propagate); any other
thrown message returns false. -/
def mountR2Storage (sandbox : Sandbox) (env : MoltbotEnv) : MountRun :=
  if !strTruthy env.R2_ACCESS_KEY_ID || !strTruthy env.R2_SECRET_ACCESS_KEY
      || !strTruthy env.CF_ACCOUNT_ID then
    ⟨.ok false, []⟩
  else
    match sandbox.mountBucket (getR2BucketName env) R2_MOUNT_PATH (mountOpts env) with
    | .ok _ => ⟨.ok true, [mountCallOf env]⟩
    | .error errorMessage => mountCatch sandbox env errorMessage

/-! Concrete inputs used by the witness theorems. -/

/-- A fully configured environment (all three credentials set, no bucket
override), as in the repository tests. -/
def envFull : MoltbotEnv :=
  ⟨some "key123", some "secret", some "account123", none⟩

/-- A fully configured environment with a custom bucket-name override. -/
def envOverride : MoltbotEnv :=
  ⟨some "key123", some "secret", some "account123", some "moltbot-e2e-test123"⟩

/-- An environment missing the access key id. -/
def envMissingKey : MoltbotEnv :=
  ⟨none, some "secret", some "account123", none⟩

/-- An environment whose secret access key is present but empty. -/
def envEmptySecret : MoltbotEnv :=
  ⟨some "key123", some "", some "account123", none⟩

/-- A completed probe process whose captured stdout holds the success
token. -/
def procDone : Process :=
  ⟨fun _ => "completed", .ok ⟨some "accessible", some ""⟩⟩

/-- A probe process that stays in "running" status forever. -/
def procStuck : Process :=
  ⟨fun _ => "running", .ok ⟨some "", some ""⟩⟩

/-- A sandbox whose mount call succeeds and whose probe reports the success
token. -/
def sandboxOk : Sandbox :=
  ⟨fun _ => .ok procDone, fun _ _ _ => .ok ()⟩

/-- A sandbox whose mount call throws the "already in use" conflict and
whose probe reports the success token. -/
def sandboxConflict : Sandbox :=
  ⟨fun _ => .ok procDone,
   fun _ _ _ => .error "Mount path is already in use by bucket"⟩

/-- A sandbox whose mount call throws the conflict and whose probe finds an
empty stdout (no success token). -/
def sandboxConflictStale : Sandbox :=
  ⟨fun _ => .ok ⟨fun _ => "completed", .ok ⟨some "", some ""⟩⟩,
   fun _ _ _ => .error "Mount path is already in use by bucket"⟩

/-- A sandbox whose mount call throws a non-conflict error. -/
def sandboxNetFail : Sandbox :=
  ⟨fun _ => .ok procDone, fun _ _ _ => .error "Network timeout"⟩

/-- A sandbox whose `startProcess` throws, so the probe's try body raises. -/
def sandboxProbeThrows : Sandbox :=
  ⟨fun _ => .error "boom", fun _ _ _ => .ok ()⟩

/-- A sandbox whose probe process never leaves "running" status. -/
def sandboxStuck : Sandbox :=
  ⟨fun _ => .ok procStuck, fun _ _ _ => .ok ()⟩

/-! Helper lemmas shared by the claim theorems. -/

/-- The probe never yields an exception: its catch-all turns every error of
the try body into `ok false`. -/
theorem isR2Accessible_isOk (s : Sandbox) : ∃ b, isR2Accessible s = .ok b := by
  unfold isR2Accessible
  cases isR2AccessibleTry s <;> exact ⟨_, rfl⟩

/-- The poll loop's final counter never exceeds 10 when started at or below
10. -/
theorem pollFrom_le_ten (statusAt : Nat → String) (a : Nat) (h : a ≤ 10) :
    pollFrom statusAt a ≤ 10 := by
  unfold pollFrom
  split
  · next hc => exact pollFrom_le_ten statusAt (a + 1) (by omega)
  · exact h
termination_by 10 - a
decreasing_by omega

/-- The catch block itself never yields an exception: whatever the message
and the sandbox behaviour, it settles on a boolean. -/
theorem mountCatch_isOk (s : Sandbox) (env : MoltbotEnv) (msg : String) :
    ∃ b, (mountCatch s env msg).result = .ok b := by
  unfold mountCatch
  split
  · obtain ⟨b, hb⟩ := isR2Accessible_isOk s
    rw [hb]
    cases b
    · exact ⟨true, rfl⟩
    · exact ⟨true, rfl⟩
  · exact ⟨false, rfl⟩

/-- With all three credentials truthy, `mountR2Storage` records exactly one
`mountBucket` invocation, whatever the sandbox does. -/
theorem mountR2Storage_calls_configured (s : Sandbox) (env : MoltbotEnv)
    (hk : strTruthy env.R2_ACCESS_KEY_ID = true)
    (hs : strTruthy env.R2_SECRET_ACCESS_KEY = true)
    (ha : strTruthy env.CF_ACCOUNT_ID = true) :
    (mountR2Storage s env).mountCalls = [mountCallOf env] := by
  have hcond : (!strTruthy env.R2_ACCESS_KEY_ID ||
      !strTruthy env.R2_SECRET_ACCESS_KEY || !strTruthy env.CF_ACCOUNT_ID)
      = false := by rw [hk, hs, ha]; rfl
  unfold mountR2Storage
  rw [hcond, if_neg (by simp)]
  cases hmb : s.mountBucket (getR2BucketName env) R2_MOUNT_PATH (mountOpts env) with
  | ok u => rfl
  | error m =>
    show (mountCatch s env m).mountCalls = [mountCallOf env]
    unfold mountCatch
    split
    · obtain ⟨b, hb⟩ := isR2Accessible_isOk s
      rw [hb]
      cases b <;> rfl
    · rfl

/-- C1: with all three credential fields present (truthy), if the sandbox's
`mountBucket` call throws an error whose message contains "already in use",
`mountR2Storage` returns true regardless of the probe's outcome (the
arbitrary sandbox `s` fixes an arbitrary probe behaviour). -/
theorem mountR2Storage_conflict_returns_true
    (s : Sandbox) (env : MoltbotEnv) (msg : String)
    (hk : strTruthy env.R2_ACCESS_KEY_ID = true)
    (hs : strTruthy env.R2_SECRET_ACCESS_KEY = true)
    (ha : strTruthy env.CF_ACCOUNT_ID = true)
    (hm : s.mountBucket (getR2BucketName env) R2_MOUNT_PATH (mountOpts env)
      = .error msg)
    (hc : strContains msg "already in use" = true) :
    (mountR2Storage s env).result = .ok true := by
  have hcond : (!strTruthy env.R2_ACCESS_KEY_ID ||
      !strTruthy env.R2_SECRET_ACCESS_KEY || !strTruthy env.CF_ACCOUNT_ID)
      = false := by rw [hk, hs, ha]; rfl
  unfold mountR2Storage
  rw [hcond, if_neg (by simp), hm]
  show (mountCatch s env msg).result = .ok true
  unfold mountCatch
  rw [if_pos hc]
  obtain ⟨b, hb⟩ := isR2Accessible_isOk s
  rw [hb]
  cases b <;> rfl

/-- Witness for C1: the conflict-throwing sandbox whose probe finds no
success token still yields true. -/
theorem mountR2Storage_conflict_returns_true_witness :
    (mountR2Storage sandboxConflictStale envFull).result = .ok true :=
  mountR2Storage_conflict_returns_true sandboxConflictStale envFull
    "Mount path is already in use by bucket" rfl rfl rfl rfl (by decide)

/-- C2: if any of the three credential fields is absent, `mountR2Storage`
returns false and `mountBucket` is never invoked. -/
theorem mountR2Storage_missing_cred_skips (s : Sandbox) (env : MoltbotEnv)
    (h : env.R2_ACCESS_KEY_ID = none ∨ env.R2_SECRET_ACCESS_KEY = none ∨
      env.CF_ACCOUNT_ID = none) :
    (mountR2Storage s env).result = .ok false ∧
      (mountR2Storage s env).mountCalls = [] := by
  unfold mountR2Storage
  rcases h with h | h | h <;> simp [h, strTruthy]

/-- Witness for C2: an environment missing the access key id gives false
with an empty call trace. -/
theorem mountR2Storage_missing_cred_skips_witness :
    (mountR2Storage sandboxOk envMissingKey).result = .ok false ∧
      (mountR2Storage sandboxOk envMissingKey).mountCalls = [] :=
  mountR2Storage_missing_cred_skips sandboxOk envMissingKey (Or.inl rfl)

/-- C3: with all three credentials present, a successful `mountBucket` call
makes `mountR2Storage` return true, and the single recorded call carries
exactly the resolved bucket name, the fixed mount path, and the options
with the endpoint derived from the account id plus the two credential
fields. -/
theorem mountR2Storage_success_exact_call (s : Sandbox) (env : MoltbotEnv)
    (hk : strTruthy env.R2_ACCESS_KEY_ID = true)
    (hs : strTruthy env.R2_SECRET_ACCESS_KEY = true)
    (ha : strTruthy env.CF_ACCOUNT_ID = true)
    (hm : s.mountBucket (getR2BucketName env) R2_MOUNT_PATH (mountOpts env)
      = .ok ()) :
    (mountR2Storage s env).result = .ok true ∧
      (mountR2Storage s env).mountCalls =
        [⟨getR2BucketName env, R2_MOUNT_PATH,
          ⟨"https://" ++ env.CF_ACCOUNT_ID.getD "" ++ ".r2.cloudflarestorage.com",
           ⟨env.R2_ACCESS_KEY_ID.getD "", env.R2_SECRET_ACCESS_KEY.getD ""⟩⟩⟩] := by
  have hcond : (!strTruthy env.R2_ACCESS_KEY_ID ||
      !strTruthy env.R2_SECRET_ACCESS_KEY || !strTruthy env.CF_ACCOUNT_ID)
      = false := by rw [hk, hs, ha]; rfl
  unfold mountR2Storage
  rw [hcond, if_neg (by simp), hm]
  exact ⟨rfl, rfl⟩

/-- Witness for C3: the fully configured environment against a succeeding
sandbox. -/
theorem mountR2Storage_success_exact_call_witness :
    (mountR2Storage sandboxOk envFull).result = .ok true ∧
      (mountR2Storage sandboxOk envFull).mountCalls =
        [⟨getR2BucketName envFull, R2_MOUNT_PATH,
          ⟨"https://" ++ envFull.CF_ACCOUNT_ID.getD "" ++ ".r2.cloudflarestorage.com",
           ⟨envFull.R2_ACCESS_KEY_ID.getD "", envFull.R2_SECRET_ACCESS_KEY.getD ""⟩⟩⟩] :=
  mountR2Storage_success_exact_call sandboxOk envFull rfl rfl rfl rfl

/-- C4: with all three credentials present, a `mountBucket` failure whose
message does not contain "already in use" makes `mountR2Storage` return
false. -/
theorem mountR2Storage_other_error_returns_false
    (s : Sandbox) (env : MoltbotEnv) (msg : String)
    (hk : strTruthy env.R2_ACCESS_KEY_ID = true)
    (hs : strTruthy env.R2_SECRET_ACCESS_KEY = true)
    (ha : strTruthy env.CF_ACCOUNT_ID = true)
    (hm : s.mountBucket (getR2BucketName env) R2_MOUNT_PATH (mountOpts env)
      = .error msg)
    (hc : strContains msg "already in use" = false) :
    (mountR2Storage s env).result = .ok false := by
  have hcond : (!strTruthy env.R2_ACCESS_KEY_ID ||
      !strTruthy env.R2_SECRET_ACCESS_KEY || !strTruthy env.CF_ACCOUNT_ID)
      = false := by rw [hk, hs, ha]; rfl
  unfold mountR2Storage
  rw [hcond, if_neg (by simp), hm]
  show (mountCatch s env msg).result = .ok false
  unfold mountCatch
  rw [if_neg (by simp [hc])]

/-- Witness for C4: a "Network timeout" failure yields false. -/
theorem mountR2Storage_other_error_returns_false_witness :
    (mountR2Storage sandboxNetFail envFull).result = .ok false :=
  mountR2Storage_other_error_returns_false sandboxNetFail envFull
    "Network timeout" rfl rfl rfl rfl (by decide)

/-- C10: a credential field present but equal to the empty string is falsy,
so `mountR2Storage` returns false and `mountBucket` is never invoked. -/
theorem mountR2Storage_empty_cred_skips (s : Sandbox) (env : MoltbotEnv)
    (h : env.R2_ACCESS_KEY_ID = some "" ∨ env.R2_SECRET_ACCESS_KEY = some "" ∨
      env.CF_ACCOUNT_ID = some "") :
    (mountR2Storage s env).result = .ok false ∧
      (mountR2Storage s env).mountCalls = [] := by
  unfold mountR2Storage
  rcases h with h | h | h <;> simp [h, strTruthy]

/-- Witness for C10: an empty secret access key gives false with an empty
call trace. -/
theorem mountR2Storage_empty_cred_skips_witness :
    (mountR2Storage sandboxOk envEmptySecret).result = .ok false ∧
      (mountR2Storage sandboxOk envEmptySecret).mountCalls = [] :=
  mountR2Storage_empty_cred_skips sandboxOk envEmptySecret (Or.inr (Or.inl rfl))

/-- C5: `mountR2Storage` never propagates an exception: for every
environment and every sandbox behaviour (mount success or throw with any
message, any probe behaviour), the run settles on a boolean result. -/
theorem mountR2Storage_never_throws (s : Sandbox) (env : MoltbotEnv) :
    ∃ b, (mountR2Storage s env).result = .ok b := by
  unfold mountR2Storage
  cases hcond : (!strTruthy env.R2_ACCESS_KEY_ID ||
      !strTruthy env.R2_SECRET_ACCESS_KEY || !strTruthy env.CF_ACCOUNT_ID) with
  | true => exact ⟨false, rfl⟩
  | false =>
    cases hmb : s.mountBucket (getR2BucketName env) R2_MOUNT_PATH (mountOpts env) with
    | ok u => exact ⟨true, rfl⟩
    | error m => exact mountCatch_isOk s env m

/-- C6: the accessibility probe never throws — it always settles on a
boolean — and any exception raised by the try body (start of the process or
retrieval of the logs) is caught and turned into `false`. -/
theorem isR2Accessible_never_throws :
    (∀ s : Sandbox, ∃ b, isR2Accessible s = .ok b) ∧
    (∀ (s : Sandbox) (e : String), isR2AccessibleTry s = .error e →
      isR2Accessible s = .ok false) := by
  refine ⟨isR2Accessible_isOk, fun s e h => ?_⟩
  unfold isR2Accessible
  rw [h]

/-- Witness for C6: a sandbox whose `startProcess` throws makes the probe
return false rather than propagate. -/
theorem isR2Accessible_never_throws_witness :
    isR2Accessible sandboxProbeThrows = .ok false :=
  isR2Accessible_never_throws.2 sandboxProbeThrows "boom" rfl

/-- C7: the probe's poll loop is bounded — at most 10 iterations of one
200ms sleep each (at most 2000ms slept in total), for every status
sequence — and afterwards the probe unconditionally proceeds to read the
captured output: its value is determined by `getLogs` alone. Totality of
the embedded functions gives termination. -/
theorem isR2Accessible_poll_bounded (s : Sandbox) (proc : Process)
    (h : s.startProcess probeCommand = .ok proc) :
    probeIterations proc ≤ 10 ∧
    probeSleepMs proc = 200 * probeIterations proc ∧
    probeSleepMs proc ≤ 2000 ∧
    isR2Accessible s =
      .ok (match proc.getLogs with
           | .error _ => false
           | .ok logs => stdoutAccessible logs.stdout) := by
  have h1 : probeIterations proc ≤ 10 :=
    pollFrom_le_ten proc.statusAt 0 (by omega)
  have h2 : probeSleepMs proc ≤ 2000 := by
    unfold probeSleepMs
    omega
  refine ⟨h1, rfl, h2, ?_⟩
  unfold isR2Accessible isR2AccessibleTry
  rw [h]
  show (match tryFromLogs proc.getLogs with
      | .ok b => (Except.ok b : Except String Bool)
      | .error _ => .ok false) = _
  cases hg : proc.getLogs <;> rfl

/-- Witness for C7: a process that never leaves "running" status caps the
loop at 10 iterations and the probe still reads the (empty) output. -/
theorem isR2Accessible_poll_bounded_witness :
    probeIterations procStuck ≤ 10 ∧
    probeSleepMs procStuck = 200 * probeIterations procStuck ∧
    probeSleepMs procStuck ≤ 2000 ∧
    isR2Accessible sandboxStuck =
      .ok (match procStuck.getLogs with
           | .error _ => false
           | .ok logs => stdoutAccessible logs.stdout) :=
  isR2Accessible_poll_bounded sandboxStuck procStuck rfl

/-- C8: when no exception occurs (the process starts and its logs are
retrieved), the probe returns true iff the captured stdout is present,
non-empty, and contains the success token "accessible". -/
theorem isR2Accessible_token_iff (s : Sandbox) (proc : Process) (logs : Logs)
    (hp : s.startProcess probeCommand = .ok proc)
    (hl : proc.getLogs = .ok logs) :
    (isR2Accessible s = .ok true ↔
      ∃ out, logs.stdout = some out ∧ out ≠ "" ∧
        strContains out "accessible" = true) := by
  have hval : isR2Accessible s = .ok (stdoutAccessible logs.stdout) := by
    unfold isR2Accessible isR2AccessibleTry
    rw [hp]
    show (match tryFromLogs proc.getLogs with
        | .ok b => (Except.ok b : Except String Bool)
        | .error _ => .ok false) = _
    rw [hl]
    rfl
  rw [hval]
  simp only [Except.ok.injEq]
  cases ho : logs.stdout with
  | none => simp [stdoutAccessible]
  | some out => simp [stdoutAccessible]

/-- Witness for C8: a completed probe process whose stdout is exactly the
success token. -/
theorem isR2Accessible_token_iff_witness :
    (isR2Accessible sandboxOk = .ok true ↔
      ∃ out, (Logs.mk (some "accessible") (some "")).stdout = some out ∧
        out ≠ "" ∧ strContains out "accessible" = true) :=
  isR2Accessible_token_iff sandboxOk procDone ⟨some "accessible", some ""⟩ rfl rfl

/-- C9: when the configuration supplies a (truthy) custom bucket-name
override, the bucket name resolves to that override and the one recorded
`mountBucket` call carries it verbatim as its first argument. -/
theorem mountR2Storage_custom_bucket (s : Sandbox) (env : MoltbotEnv)
    (name : String)
    (hk : strTruthy env.R2_ACCESS_KEY_ID = true)
    (hs : strTruthy env.R2_SECRET_ACCESS_KEY = true)
    (ha : strTruthy env.CF_ACCOUNT_ID = true)
    (hn : env.R2_BUCKET_NAME = some name) (hne : name ≠ "") :
    getR2BucketName env = name ∧
      (mountR2Storage s env).mountCalls =
        [⟨name, R2_MOUNT_PATH, mountOpts env⟩] := by
  have hbn : getR2BucketName env = name := by
    unfold getR2BucketName
    rw [hn]
    show (if (name == "") = true then "moltbot-data" else name) = name
    rw [if_neg (by simp [hne])]
  refine ⟨hbn, ?_⟩
  rw [mountR2Storage_calls_configured s env hk hs ha]
  unfold mountCallOf
  rw [hbn]

/-- Witness for C9: a custom override "moltbot-e2e-test123" is the bucket
argument of the recorded mount call. -/
theorem mountR2Storage_custom_bucket_witness :
    getR2BucketName envOverride = "moltbot-e2e-test123" ∧
      (mountR2Storage sandboxOk envOverride).mountCalls =
        [⟨"moltbot-e2e-test123", R2_MOUNT_PATH, mountOpts envOverride⟩] :=
  mountR2Storage_custom_bucket sandboxOk envOverride "moltbot-e2e-test123"
    rfl rfl rfl rfl (by decide)

end Moltbot
